import Mathlib

/-!
Shallow embedding of the `taoanhdanang` web client:
`src/types.ts`, `src/services/geminiService.ts` and the state-controller
logic of `src/App.tsx`, together with theorems checking the
natural-language specification against this embedding.

JavaScript/TypeScript values that may be `undefined` are modelled with
`Option`; a JavaScript `TypeError` raised by dereferencing an absent
field is modelled as an explicit error constructor; thrown errors become
`Except` results; the asynchronous remote call and other ambient effects
(fresh UUID, clock, `URL.createObjectURL`) are supplied as explicit
environment parameters.
-/

namespace TaoAnh

/-! ## Data model (`src/types.ts`) -/

/-- `type AspectRatio = '1:1' | '9:16' | '16:9'` (src/types.ts line 1). -/
inductive AspectRatio where
  | r1x1
  | r9x16
  | r16x9
  deriving DecidableEq, Repr

/-- The string literal a given `AspectRatio` stands for in the source. -/
def AspectRatio.str : AspectRatio → String
  | .r1x1 => "1:1"
  | .r9x16 => "9:16"
  | .r16x9 => "16:9"

/-- `interface GeneratedImage` (src/types.ts lines 3-9).
`timestamp` is `Date.now()`, a number of milliseconds, modelled as `Nat`. -/
structure GeneratedImage where
  id : String
  url : String
  prompt : String
  aspectRatio : AspectRatio
  timestamp : Nat
  deriving DecidableEq, Repr

/-- `enum GenerationMode` (src/types.ts lines 11-14). -/
inductive GenerationMode where
  | TEXT_TO_IMAGE
  | IMAGE_TO_IMAGE
  deriving DecidableEq, Repr

/-- `interface LoadingState` (src/types.ts lines 16-19). -/
structure LoadingState where
  isLoading : Bool
  message : String
  deriving DecidableEq, Repr

/-- A browser `File` handle: the only field the code reads is `file.type`
(the MIME type, src/App.tsx line 56). -/
structure JSFile where
  type : String
  deriving DecidableEq, Repr

/-- `interface UploadedImage` (src/types.ts lines 21-26). -/
structure UploadedImage where
  file : JSFile
  previewUrl : String
  base64 : String
  mimeType : String
  deriving DecidableEq, Repr

/-! ## Remote reply structure (consumed by `extractImageFromResponse`)

The reply is typed `any` in the source; the fields the code touches are
`candidates`, `candidates[0].content`, `content.parts`, `part.inlineData`,
`inlineData.data`.  Each field that may be absent at runtime is an
`Option`. -/

/-- The `inlineData` object of a content part: MIME type plus base64 payload. -/
structure InlineData where
  mimeType : String
  data : String
  deriving DecidableEq, Repr

/-- One content part of a candidate: it may carry `inlineData`, `text`, both
or neither. -/
structure RespPart where
  inlineData : Option InlineData
  text : Option String
  deriving DecidableEq, Repr

/-- The `content` object of a candidate; its `parts` field may be absent. -/
structure Content where
  parts : Option (List RespPart)
  deriving DecidableEq, Repr

/-- One reply candidate; its `content` field may be absent. -/
structure Candidate where
  content : Option Content
  deriving DecidableEq, Repr

/-- The raw reply from the remote capability; the `candidates` field may be
absent. -/
structure GenResponse where
  candidates : Option (List Candidate)
  deriving DecidableEq, Repr

/-- The ways `extractImageFromResponse` can throw:
* `noCandidate` — `new Error("No candidates returned from Gemini.")`;
* `noImage` — `new Error("No image data found in the response.")`;
* `typeError` — the JavaScript `TypeError` raised when
  `candidates[0].content.parts` dereferences an absent field, or when the
  `for...of` loop iterates over `undefined`. -/
inductive ExtractError where
  | noCandidate
  | noImage
  | typeError
  deriving DecidableEq, Repr

/-- The `for (const part of parts)` loop body of `extractImageFromResponse`
(src/services/geminiService.ts lines 82-92): return the first part whose
`inlineData` is truthy, re-wrapped as a data URL, else fall through to the
`NoImageError` throw. -/
def findInlinePart : List RespPart → Except ExtractError String
  | [] => .error .noImage
  | p :: rest =>
    match p.inlineData with
    | some d => .ok ("data:image/png;base64," ++ d.data)
    | none => findInlinePart rest

/-- `extractImageFromResponse` (src/services/geminiService.ts lines 74-93).
`!response.candidates || response.candidates.length === 0` throws the
no-candidate error; then `response.candidates[0].content.parts` is read —
an absent `content` or `parts` raises a `TypeError`; then the parts are
scanned in order for inline data. -/
def extractImageFromResponse (response : GenResponse) : Except ExtractError String :=
  match response.candidates with
  | none => .error .noCandidate
  | some cands =>
    match cands with
    | [] => .error .noCandidate
    | c :: _ =>
      match c.content with
      | none => .error .typeError
      | some content =>
        match content.parts with
        | none => .error .typeError
        | some parts => findInlinePart parts

/-! ## Request payloads (`generateImageFromText`, `generateImageFromImage`) -/

/-- One part of a request payload: either an inline-data part (whose `data`
may be the JavaScript `undefined`, modelled as `none`) or a text part. -/
inductive ReqPart where
  | inlineData (mimeType : String) (data : Option String)
  | text (t : String)
  deriving DecidableEq, Repr

/-- Whether a request part is an inline-data part. -/
def ReqPart.isInlineData : ReqPart → Bool
  | .inlineData _ _ => true
  | .text _ => false

/-- Whether a request part is a text part. -/
def ReqPart.isText : ReqPart → Bool
  | .inlineData _ _ => false
  | .text _ => true

/-- The `imageConfig` object of the request config. -/
structure ImageConfig where
  aspectRatio : AspectRatio
  deriving DecidableEq, Repr

/-- The `config` object of the request. -/
structure GenConfig where
  imageConfig : ImageConfig
  deriving DecidableEq, Repr

/-- The payload handed to `ai.models.generateContent`. -/
structure RequestPayload where
  model : String
  parts : List ReqPart
  config : GenConfig
  deriving DecidableEq, Repr

/-- `const MODEL_NAME = 'gemini-2.5-flash-image'` (src/services/geminiService.ts line 8). -/
def MODEL_NAME : String := "gemini-2.5-flash-image"

/-- The request body built by `generateImageFromText`
(src/services/geminiService.ts lines 15-25): a single text part carrying
the prompt, and a config carrying the aspect ratio. -/
def generateImageFromTextRequest (prompt : String) (aspectRatio : AspectRatio) :
    RequestPayload :=
  { model := MODEL_NAME
    parts := [ReqPart.text prompt]
    config := { imageConfig := { aspectRatio := aspectRatio } } }

/-- JavaScript `s.split(',')` on the characters of a string: cut at every
comma, keeping empty pieces. -/
def splitCommaAux : List Char → List Char → List String
  | [], acc => [String.mk acc.reverse]
  | c :: rest, acc =>
    if c = ',' then String.mk acc.reverse :: splitCommaAux rest []
    else splitCommaAux rest (c :: acc)

/-- JavaScript `s.split(',')` (src/services/geminiService.ts line 44 uses
`sourceImage.base64.split(',')[1]`). -/
def splitComma (s : String) : List String :=
  splitCommaAux s.data []

/-- The request body built by `generateImageFromImage`
(src/services/geminiService.ts lines 44-64): an inline-data part carrying
`sourceImage.base64.split(',')[1]` (the JavaScript index yields `undefined`,
i.e. `none`, when no comma is present) and the source MIME type, followed by
the text part, with a config carrying the aspect ratio. -/
def generateImageFromImageRequest (sourceImage : UploadedImage) (prompt : String)
    (aspectRatio : AspectRatio) : RequestPayload :=
  let base64Data : Option String := (splitComma sourceImage.base64)[1]?
  { model := MODEL_NAME
    parts := [ReqPart.inlineData sourceImage.mimeType base64Data, ReqPart.text prompt]
    config := { imageConfig := { aspectRatio := aspectRatio } } }

/-! ## UI state controller (`src/App.tsx`)

The component's `useState` hooks and the file-input ref become one record;
each handler becomes a function on it.  Ambient effects — the outcome of
the awaited remote call, `crypto.randomUUID()`, `Date.now()`,
`URL.createObjectURL` and the `fileToBase64` outcome — are passed in
explicitly.  `URL.revokeObjectURL` calls are reported as a list of revoked
URLs, and whether a remote call was issued as a `Bool`. -/

/-- The component state of `App` (src/App.tsx lines 30-38): the seven
`useState` hooks plus the `value` of the file input the `fileInputRef`
points at. -/
structure AppState where
  mode : GenerationMode
  prompt : String
  aspectRatio : AspectRatio
  loading : LoadingState
  uploadedImage : Option UploadedImage
  generatedImages : List GeneratedImage
  error : Option String
  fileInputValue : String
  deriving DecidableEq, Repr

/-- `switchMode` (src/App.tsx lines 41-44): set the mode, clear the error. -/
def switchMode (newMode : GenerationMode) (s : AppState) : AppState :=
  { s with mode := newMode, error := none }

/-- The prompt textarea's `onChange` handler (src/App.tsx line 212):
`setPrompt(e.target.value)` and nothing else. -/
def handlePromptChange (value : String) (s : AppState) : AppState :=
  { s with prompt := value }

/-- The aspect-ratio buttons' `onClick` handlers (src/App.tsx lines 223,
235, 247): `setAspectRatio(r)` and nothing else. -/
def handleAspectRatioChange (r : AspectRatio) (s : AppState) : AppState :=
  { s with aspectRatio := r }

/-- Ambient inputs of `handleFileChange`: the outcome of
`await fileToBase64(file)` (which may reject) and the URL
`URL.createObjectURL(file)` returns. -/
structure FileChangeEnv where
  encodeResult : Except Unit String
  freshUrl : String

/-- `handleFileChange` (src/App.tsx lines 47-63).  Input: the `files` list
of the change event.  If a first file is present, encode it; on success
store the new `UploadedImage` (fresh object URL, base64, `file.type`) and
clear the error, on failure set the localized read-error message.  Returns
the new state together with the list of object URLs the handler revoked
(the source revokes none here). -/
def handleFileChange (env : FileChangeEnv) (files : List JSFile) (s : AppState) :
    AppState × List String :=
  match files[0]? with
  | none => (s, [])
  | some file =>
    match env.encodeResult with
    | .ok base64 =>
      ({ s with
          uploadedImage := some
            { file := file
              previewUrl := env.freshUrl
              base64 := base64
              mimeType := file.type }
          error := none }, [])
    | .error _ =>
      ({ s with error := some "Không thể xử lý ảnh. Vui lòng thử ảnh khác." }, [])

/-- `removeUploadedImage` (src/App.tsx lines 69-77): revoke the current
preview URL if an image is present, clear the slot, reset the file input's
`value` to the empty string.  Returns the new state together with the list
of revoked object URLs. -/
def removeUploadedImage (s : AppState) : AppState × List String :=
  let revoked := match s.uploadedImage with
    | some img => [img.previewUrl]
    | none => []
  ({ s with uploadedImage := none, fileInputValue := "" }, revoked)

/-- A thrown JavaScript error as observed by the `catch` clause: only its
`message` string is read. -/
structure JsError where
  message : String
  deriving DecidableEq, Repr

/-- What the awaited remote generation resolves to: a data-URL string, or a
thrown error. -/
inductive GenOutcome where
  | success (url : String)
  | failure (e : JsError)
  deriving DecidableEq, Repr

/-- Ambient inputs of `handleGenerate`: the remote call's outcome (were one
issued), `crypto.randomUUID()` and `Date.now()`. -/
structure GenEnv where
  outcome : GenOutcome
  freshId : String
  now : Nat

/-- JavaScript `s.trim()`: the string with whitespace stripped from both
ends. -/
def jsTrim (s : String) : String :=
  String.mk (((s.data.dropWhile Char.isWhitespace).reverse.dropWhile
    Char.isWhitespace).reverse)

/-- Whether `needle` occurs as a contiguous run in the haystack: it is a
prefix of some suffix. -/
def jsIncludesAux (needle : List Char) : List Char → Bool
  | [] => needle.isPrefixOf []
  | c :: rest => needle.isPrefixOf (c :: rest) || jsIncludesAux needle rest

/-- JavaScript `a.includes(b)`: `b` occurs contiguously somewhere in `a`. -/
def jsIncludes (a b : String) : Bool :=
  jsIncludesAux b.data a.data

/-- Localized validation message for an empty prompt (src/App.tsx line 92). -/
def MSG_EMPTY_PROMPT : String := "Vui lòng nhập mô tả."

/-- Localized validation message for a missing upload (src/App.tsx line 97). -/
def MSG_NO_IMAGE : String := "Vui lòng tải ảnh lên để biến đổi."

/-- Localized generic failure message (src/App.tsx line 123). -/
def MSG_GENERIC : String := "Đã xảy ra lỗi. Vui lòng thử lại."

/-- Localized safety-rejection message (src/App.tsx line 125). -/
def MSG_SAFETY : String := "Mô tả bị hệ thống an toàn chặn. Vui lòng thử mô tả khác."

/-- `handleGenerate` (src/App.tsx lines 90-131).  Guards: empty trimmed
prompt, then image-to-image without an upload — both return before any
remote work.  Otherwise loading is set, the error cleared, the remote call
awaited; on success a fresh `GeneratedImage` is prepended to the history,
on failure the error message is derived (`err.message &&
err.message.includes("SAFETY")` selects the safety message), and the
`finally` clause clears loading.  Returns the new state and whether a
remote call was issued. -/
def handleGenerate (env : GenEnv) (s : AppState) : AppState × Bool :=
  if jsTrim s.prompt = "" then
    ({ s with error := some MSG_EMPTY_PROMPT }, false)
  else if s.mode = GenerationMode.IMAGE_TO_IMAGE ∧ s.uploadedImage = none then
    ({ s with error := some MSG_NO_IMAGE }, false)
  else
    let s1 := { s with
      loading := { isLoading := true, message := "Đang tạo tác phẩm..." }
      error := none }
    match env.outcome with
    | .success url =>
      let newImage : GeneratedImage :=
        { id := env.freshId
          url := url
          prompt := s.prompt
          aspectRatio := s.aspectRatio
          timestamp := env.now }
      ({ s1 with
          generatedImages := newImage :: s1.generatedImages
          loading := { isLoading := false, message := "" } }, true)
    | .failure e =>
      let errorMessage :=
        if e.message ≠ "" ∧ jsIncludes e.message "SAFETY" then MSG_SAFETY
        else MSG_GENERIC
      ({ s1 with
          error := some errorMessage
          loading := { isLoading := false, message := "" } }, true)

/-! ## Concrete example values used by witnesses and counterexamples -/

/-- A text-only content part of a reply. -/
def exPartText : RespPart := { inlineData := none, text := some "hello" }

/-- A content part of a reply carrying inline image data. -/
def exPartImage : RespPart :=
  { inlineData := some { mimeType := "image/png", data := "AAAA" }, text := none }

/-- A reply whose single candidate holds a text part followed by an inline
image part. -/
def exResponse : GenResponse :=
  { candidates := some [{ content := some { parts := some [exPartText, exPartImage] } }] }

/-- A reply with one candidate that carries no `content` field. -/
def exResponseNoContent : GenResponse :=
  { candidates := some [{ content := none }] }

/-- A previously uploaded image with preview URL `"blob:old"`. -/
def exOldUpload : UploadedImage :=
  { file := { type := "image/png" }
    previewUrl := "blob:old"
    base64 := "data:image/png;base64,QUJD"
    mimeType := "image/png" }

/-- An idle app state holding `exOldUpload` in image-to-image mode. -/
def exStateWithUpload : AppState :=
  { mode := GenerationMode.IMAGE_TO_IMAGE
    prompt := "make it blue"
    aspectRatio := AspectRatio.r1x1
    loading := { isLoading := false, message := "" }
    uploadedImage := some exOldUpload
    generatedImages := []
    error := none
    fileInputValue := "C:\\fakepath\\cat.png" }

/-- An idle text-to-image app state with an empty prompt. -/
def exStateEmptyPrompt : AppState :=
  { mode := GenerationMode.TEXT_TO_IMAGE
    prompt := "   "
    aspectRatio := AspectRatio.r16x9
    loading := { isLoading := false, message := "" }
    uploadedImage := none
    generatedImages := []
    error := none
    fileInputValue := "" }

/-- An idle text-to-image app state with a non-empty prompt. -/
def exStateReady : AppState :=
  { mode := GenerationMode.TEXT_TO_IMAGE
    prompt := "a red cube"
    aspectRatio := AspectRatio.r1x1
    loading := { isLoading := false, message := "" }
    uploadedImage := none
    generatedImages := []
    error := none
    fileInputValue := "" }

/-- A generation environment whose remote call succeeds. -/
def exEnvSuccess : GenEnv :=
  { outcome := GenOutcome.success "data:image/png;base64,AAAA"
    freshId := "id-1"
    now := 1700000000000 }

/-- A generation environment whose remote call throws a safety rejection. -/
def exEnvSafety : GenEnv :=
  { outcome := GenOutcome.failure { message := "Blocked: SAFETY violation" }
    freshId := "id-2"
    now := 1700000000001 }

/-! ## Helper lemmas -/

/-- If no part of the list carries inline data, the scan falls through to
the no-image error. -/
theorem findInlinePart_eq_noImage (parts : List RespPart)
    (h : ∀ p ∈ parts, p.inlineData = none) :
    findInlinePart parts = Except.error ExtractError.noImage := by
  induction parts with
  | nil => rfl
  | cons p rest ih =>
    have hp : p.inlineData = none := h p (List.mem_cons_self p rest)
    simp only [findInlinePart, hp]
    exact ih fun q hq => h q (List.mem_cons_of_mem p hq)

/-- The scan returns the first part carrying inline data. -/
theorem findInlinePart_eq_first (pre : List RespPart) (p : RespPart)
    (post : List RespPart) (d : InlineData)
    (hpre : ∀ q ∈ pre, q.inlineData = none) (hp : p.inlineData = some d) :
    findInlinePart (pre ++ p :: post) =
      Except.ok ("data:image/png;base64," ++ d.data) := by
  induction pre with
  | nil =>
    simp only [List.nil_append, findInlinePart, hp]
  | cons q rest ih =>
    have hq : q.inlineData = none := hpre q (List.mem_cons_self q rest)
    simp only [List.cons_append, findInlinePart, hq]
    exact ih fun r hr => hpre r (List.mem_cons_of_mem q hr)

/-- A comma-free chunk produces a single piece. -/
theorem splitCommaAux_no_comma (l : List Char) (acc : List Char)
    (h : ',' ∉ l) :
    splitCommaAux l acc = [String.mk (acc.reverse ++ l)] := by
  induction l generalizing acc with
  | nil => simp [splitCommaAux]
  | cons c rest ih =>
    have hc : c ≠ ',' := fun hc => h (hc ▸ List.mem_cons_self c rest)
    have hrest : ',' ∉ rest := fun hr => h (List.mem_cons_of_mem c hr)
    simp only [splitCommaAux, if_neg hc]
    rw [ih (c :: acc) hrest]
    simp

/-- Splitting cuts at the first comma. -/
theorem splitCommaAux_first_comma (pre post : List Char) (acc : List Char)
    (hpre : ',' ∉ pre) :
    splitCommaAux (pre ++ ',' :: post) acc =
      String.mk (acc.reverse ++ pre) :: splitCommaAux post [] := by
  induction pre generalizing acc with
  | nil => simp [splitCommaAux]
  | cons c rest ih =>
    have hc : c ≠ ',' := fun hc => hpre (hc ▸ List.mem_cons_self c rest)
    have hrest : ',' ∉ rest := fun hr => hpre (List.mem_cons_of_mem c hr)
    simp only [List.cons_append, splitCommaAux, if_neg hc, List.append_eq]
    rw [ih (c :: acc) hrest]
    simp

/-- JavaScript `split(',')` on a string with exactly one comma yields the
two comma-free sides. -/
theorem splitComma_single_comma (s : String) (pre post : List Char)
    (hs : s.data = pre ++ ',' :: post)
    (hpre : ',' ∉ pre) (hpost : ',' ∉ post) :
    splitComma s = [String.mk pre, String.mk post] := by
  unfold splitComma
  rw [hs, splitCommaAux_first_comma pre post [] hpre,
      splitCommaAux_no_comma post [] hpost]
  simp

/-- The empty error message contains no `"SAFETY"` substring. -/
theorem jsIncludes_empty_SAFETY : jsIncludes "" "SAFETY" = false := by decide

/-! ## Claim theorems -/

/-- **C1**: for every reply from the remote capability: with zero
candidates (or no candidates field) the extractor fails with the
no-candidate error; when the first candidate's parts contain no inline
data it fails with the no-image error; otherwise it returns
`"data:image/png;base64,"` followed by exactly the data of the first part
carrying inline data, scanning parts in order. -/
theorem extractImage_spec (r : GenResponse) :
    ((r.candidates = none ∨ r.candidates = some []) →
      extractImageFromResponse r = Except.error ExtractError.noCandidate) ∧
    (∀ c rest parts, r.candidates = some (c :: rest) →
      c.content = some { parts := some parts } →
      ((∀ p ∈ parts, p.inlineData = none) →
        extractImageFromResponse r = Except.error ExtractError.noImage) ∧
      (∀ pre p post d, parts = pre ++ p :: post →
        (∀ q ∈ pre, q.inlineData = none) → p.inlineData = some d →
        extractImageFromResponse r = Except.ok ("data:image/png;base64," ++ d.data))) := by
  constructor
  · rintro (h | h) <;> simp [extractImageFromResponse, h]
  · rintro c rest parts hc hcontent
    constructor
    · intro hnone
      simp only [extractImageFromResponse, hc, hcontent]
      exact findInlinePart_eq_noImage parts hnone
    · rintro pre p post d hparts hpre hp
      simp only [extractImageFromResponse, hc, hcontent, hparts]
      exact findInlinePart_eq_first pre p post d hpre hp

/-- Witness for **C1**: on a reply whose single candidate holds a text part
followed by an inline-data part with payload `"AAAA"`, the extractor
returns the wrapped data URL. -/
theorem extractImage_spec_witness :
    extractImageFromResponse exResponse = Except.ok "data:image/png;base64,AAAA" := by
  have h := ((extractImage_spec exResponse).2
      { content := some { parts := some [exPartText, exPartImage] } } []
      [exPartText, exPartImage] rfl rfl).2
      [exPartText] exPartImage [] { mimeType := "image/png", data := "AAAA" }
      rfl (by decide) rfl
  simpa using h

/-- **C9**: on a reply whose candidate list is non-empty but whose first
candidate lacks a `content` field or a `parts` field, extraction fails by
dereferencing an absent field (a type error), not with the no-image error
reserved for replies without inline data. -/
theorem extractImage_missing_content_typeError (r : GenResponse) (c : Candidate)
    (rest : List Candidate)
    (hc : r.candidates = some (c :: rest))
    (h : c.content = none ∨ c.content = some { parts := none }) :
    extractImageFromResponse r = Except.error ExtractError.typeError ∧
    extractImageFromResponse r ≠ Except.error ExtractError.noImage := by
  rcases h with h | h <;> simp [extractImageFromResponse, hc, h]

/-- Witness for **C9**: a reply with one candidate and no `content` field
raises the type error. -/
theorem extractImage_missing_content_typeError_witness :
    extractImageFromResponse exResponseNoContent = Except.error ExtractError.typeError ∧
    extractImageFromResponse exResponseNoContent ≠ Except.error ExtractError.noImage :=
  extractImage_missing_content_typeError exResponseNoContent { content := none } []
    rfl (Or.inl rfl)

/-- **C2**: for every image-to-image generation with a present uploaded
image whose base64 string is a data URL (one comma, separating a comma-free
header from a comma-free payload) and a non-empty prompt, the request
payload holds the inline-data part first and the text part second; the
inline-data part's bytes are the uploaded image's base64 string with
everything up to and including the first comma stripped, and its MIME type
is the uploaded image's `mimeType`. -/
theorem generateImageFromImageRequest_spec (sourceImage : UploadedImage)
    (prompt : String) (ar : AspectRatio) (pre post : List Char)
    (hb : sourceImage.base64.data = pre ++ ',' :: post)
    (hpre : ',' ∉ pre) (hpost : ',' ∉ post) (hprompt : prompt ≠ "") :
    generateImageFromImageRequest sourceImage prompt ar =
      { model := MODEL_NAME
        parts := [ReqPart.inlineData sourceImage.mimeType (some (String.mk post)),
                  ReqPart.text prompt]
        config := { imageConfig := { aspectRatio := ar } } } := by
  simp [generateImageFromImageRequest,
    splitComma_single_comma sourceImage.base64 pre post hb hpre hpost]

/-- Witness for **C2**: the upload with base64
`"data:image/png;base64,QUJD"` yields an inline-data part with payload
`"QUJD"` followed by the text part. -/
theorem generateImageFromImageRequest_spec_witness :
    generateImageFromImageRequest exOldUpload "make it blue" AspectRatio.r9x16 =
      { model := MODEL_NAME
        parts := [ReqPart.inlineData "image/png" (some "QUJD"),
                  ReqPart.text "make it blue"]
        config := { imageConfig := { aspectRatio := AspectRatio.r9x16 } } } := by
  have h := generateImageFromImageRequest_spec exOldUpload "make it blue"
      AspectRatio.r9x16 ("data:image/png;base64").data ("QUJD").data
      (by decide) (by decide) (by decide) (by decide)
  exact h

/-- **C3**: for every non-empty prompt in text-to-image mode, the request
payload contains exactly one text part (carrying the prompt) and no
inline-data part, and its config carries the requested aspect ratio; in
particular, prompt `"a red cube"` with aspect ratio `"1:1"` yields exactly
the part list `[text "a red cube"]` and config
`{imageConfig := {aspectRatio := "1:1"}}`. -/
theorem generateImageFromTextRequest_spec (prompt : String) (ar : AspectRatio)
    (hprompt : prompt ≠ "") :
    (generateImageFromTextRequest prompt ar).parts = [ReqPart.text prompt] ∧
    ((generateImageFromTextRequest prompt ar).parts.filter ReqPart.isText).length = 1 ∧
    (∀ p ∈ (generateImageFromTextRequest prompt ar).parts, p.isInlineData = false) ∧
    (generateImageFromTextRequest prompt ar).config =
      { imageConfig := { aspectRatio := ar } } ∧
    generateImageFromTextRequest "a red cube" AspectRatio.r1x1 =
      { model := MODEL_NAME
        parts := [ReqPart.text "a red cube"]
        config := { imageConfig := { aspectRatio := AspectRatio.r1x1 } } } ∧
    AspectRatio.r1x1.str = "1:1" := by
  refine ⟨rfl, rfl, ?_, rfl, rfl, rfl⟩
  intro p hp
  simp only [generateImageFromTextRequest, List.mem_singleton] at hp
  subst hp
  rfl

/-- Witness for **C3**: the `"a red cube"` scenario. -/
theorem generateImageFromTextRequest_spec_witness :
    (generateImageFromTextRequest "a red cube" AspectRatio.r1x1).parts =
      [ReqPart.text "a red cube"] :=
  (generateImageFromTextRequest_spec "a red cube" AspectRatio.r1x1 (by decide)).1

/-- **C4**: for every submission from a non-loading state where the trimmed
prompt is empty, or where the mode is image-to-image and no uploaded image
is present, the generate handler makes no remote call, sets one of the two
localized validation messages, and the loading flag stays false. -/
theorem handleGenerate_validation (env : GenEnv) (s : AppState)
    (hload : s.loading.isLoading = false)
    (h : jsTrim s.prompt = "" ∨
         (s.mode = GenerationMode.IMAGE_TO_IMAGE ∧ s.uploadedImage = none)) :
    (handleGenerate env s).2 = false ∧
    ((handleGenerate env s).1.error = some MSG_EMPTY_PROMPT ∨
     (handleGenerate env s).1.error = some MSG_NO_IMAGE) ∧
    (handleGenerate env s).1.loading.isLoading = false := by
  by_cases hp : jsTrim s.prompt = ""
  · simp [handleGenerate, hp, hload]
  · rcases h with h | h
    · exact absurd h hp
    · simp [handleGenerate, hp, h, hload]

/-- Witness for **C4**: submitting a whitespace-only prompt issues no
remote call and surfaces the empty-prompt message. -/
theorem handleGenerate_validation_witness :
    (handleGenerate exEnvSuccess exStateEmptyPrompt).2 = false ∧
    ((handleGenerate exEnvSuccess exStateEmptyPrompt).1.error = some MSG_EMPTY_PROMPT ∨
     (handleGenerate exEnvSuccess exStateEmptyPrompt).1.error = some MSG_NO_IMAGE) ∧
    (handleGenerate exEnvSuccess exStateEmptyPrompt).1.loading.isLoading = false :=
  handleGenerate_validation exEnvSuccess exStateEmptyPrompt rfl (Or.inl (by decide))

/-- **C5**: for every successful generation (validation passed and the
remote call resolved), a new `GeneratedImage` — fresh id, the result url,
the submitted prompt, the selected aspect ratio, and a creation
timestamp — is prepended to the front of the history list, all previously
stored images preserved unchanged behind it. -/
theorem handleGenerate_success_prepends (env : GenEnv) (s : AppState) (url : String)
    (hp : jsTrim s.prompt ≠ "")
    (hv : ¬(s.mode = GenerationMode.IMAGE_TO_IMAGE ∧ s.uploadedImage = none))
    (ho : env.outcome = GenOutcome.success url) :
    (handleGenerate env s).1.generatedImages =
      { id := env.freshId
        url := url
        prompt := s.prompt
        aspectRatio := s.aspectRatio
        timestamp := env.now } :: s.generatedImages := by
  simp [handleGenerate, hp, hv, ho]

/-- Witness for **C5**: a successful text-to-image run prepends the new
image to the empty history. -/
theorem handleGenerate_success_prepends_witness :
    (handleGenerate exEnvSuccess exStateReady).1.generatedImages =
      [{ id := "id-1"
         url := "data:image/png;base64,AAAA"
         prompt := "a red cube"
         aspectRatio := AspectRatio.r1x1
         timestamp := 1700000000000 }] :=
  handleGenerate_success_prepends exEnvSuccess exStateReady
    "data:image/png;base64,AAAA" (by decide) (by decide) rfl

/-- **C7**: for every valid submission, the loading flag is cleared
afterward whatever the outcome; and when the remote call throws, the
derived error message is the policy-rejection message exactly when the
thrown error's message contains `"SAFETY"`, the generic failure message
otherwise. -/
theorem handleGenerate_failure_message (env : GenEnv) (s : AppState)
    (hp : jsTrim s.prompt ≠ "")
    (hv : ¬(s.mode = GenerationMode.IMAGE_TO_IMAGE ∧ s.uploadedImage = none)) :
    (handleGenerate env s).1.loading.isLoading = false ∧
    ∀ e, env.outcome = GenOutcome.failure e →
      (handleGenerate env s).1.error =
        some (if jsIncludes e.message "SAFETY" then MSG_SAFETY else MSG_GENERIC) := by
  have hmsg : ∀ e : JsError,
      (if e.message ≠ "" ∧ jsIncludes e.message "SAFETY" then MSG_SAFETY
       else MSG_GENERIC) =
      (if jsIncludes e.message "SAFETY" then MSG_SAFETY else MSG_GENERIC) := by
    intro e
    by_cases hinc : jsIncludes e.message "SAFETY" = true
    · have hne : e.message ≠ "" := by
        intro h0
        rw [h0, jsIncludes_empty_SAFETY] at hinc
        exact Bool.noConfusion hinc
      rw [if_pos ⟨hne, hinc⟩, if_pos hinc]
    · rw [if_neg fun hand => hinc hand.2, if_neg hinc]
  cases houtcome : env.outcome with
  | success url =>
    refine ⟨by simp [handleGenerate, hp, hv, houtcome], ?_⟩
    intro e he
    exact GenOutcome.noConfusion he
  | failure e =>
    refine ⟨by simp [handleGenerate, hp, hv, houtcome], ?_⟩
    intro e' he
    cases he
    simp only [handleGenerate, if_neg hp, if_neg hv, houtcome]
    rw [hmsg e]

/-- Witness for **C7**: an error whose message contains `"SAFETY"` yields
the policy-rejection message with loading cleared. -/
theorem handleGenerate_failure_message_witness :
    (handleGenerate exEnvSafety exStateWithUpload).1.loading.isLoading = false ∧
    (handleGenerate exEnvSafety exStateWithUpload).1.error = some MSG_SAFETY := by
  have h := handleGenerate_failure_message exEnvSafety exStateWithUpload
    (by decide) (by decide)
  refine ⟨h.1, ?_⟩
  have h2 := h.2 { message := "Blocked: SAFETY violation" } rfl
  rw [h2]
  decide

/-- **C8**: a mode switch clears the error while leaving prompt, aspect
ratio, uploaded image and history unchanged; editing the prompt textarea
changes only the prompt, never the error (nor any other field). -/
theorem switchMode_handlePromptChange_frame (m : GenerationMode) (v : String)
    (s : AppState) :
    (switchMode m s).error = none ∧
    (switchMode m s).mode = m ∧
    (switchMode m s).prompt = s.prompt ∧
    (switchMode m s).aspectRatio = s.aspectRatio ∧
    (switchMode m s).uploadedImage = s.uploadedImage ∧
    (switchMode m s).generatedImages = s.generatedImages ∧
    (handlePromptChange v s).prompt = v ∧
    (handlePromptChange v s).error = s.error ∧
    (handlePromptChange v s).mode = s.mode ∧
    (handlePromptChange v s).aspectRatio = s.aspectRatio ∧
    (handlePromptChange v s).uploadedImage = s.uploadedImage ∧
    (handlePromptChange v s).generatedImages = s.generatedImages ∧
    (handlePromptChange v s).loading = s.loading :=
  ⟨rfl, rfl, rfl, rfl, rfl, rfl, rfl, rfl, rfl, rfl, rfl, rfl, rfl⟩

/-- **C10**: for every submission that ends in failure — a validation
rejection or a thrown remote call — the history, the prompt, the aspect
ratio, the mode, the uploaded image and the file-input value are all
unchanged afterward. -/
theorem handleGenerate_failure_frame (env : GenEnv) (s : AppState)
    (h : jsTrim s.prompt = "" ∨
         (s.mode = GenerationMode.IMAGE_TO_IMAGE ∧ s.uploadedImage = none) ∨
         ∃ e, env.outcome = GenOutcome.failure e) :
    (handleGenerate env s).1.generatedImages = s.generatedImages ∧
    (handleGenerate env s).1.prompt = s.prompt ∧
    (handleGenerate env s).1.aspectRatio = s.aspectRatio ∧
    (handleGenerate env s).1.mode = s.mode ∧
    (handleGenerate env s).1.uploadedImage = s.uploadedImage ∧
    (handleGenerate env s).1.fileInputValue = s.fileInputValue := by
  by_cases hp : jsTrim s.prompt = ""
  · simp [handleGenerate, hp]
  · by_cases hv : s.mode = GenerationMode.IMAGE_TO_IMAGE ∧ s.uploadedImage = none
    · simp [handleGenerate, hp, hv]
    · rcases h with h | h | ⟨e, he⟩
      · exact absurd h hp
      · exact absurd h hv
      · simp [handleGenerate, hp, hv, he]

/-- Witness for **C10**: a safety-rejected submission leaves history,
prompt, aspect ratio, mode, uploaded image and file-input value intact. -/
theorem handleGenerate_failure_frame_witness :
    (handleGenerate exEnvSafety exStateWithUpload).1.generatedImages =
      exStateWithUpload.generatedImages ∧
    (handleGenerate exEnvSafety exStateWithUpload).1.prompt =
      exStateWithUpload.prompt ∧
    (handleGenerate exEnvSafety exStateWithUpload).1.aspectRatio =
      exStateWithUpload.aspectRatio ∧
    (handleGenerate exEnvSafety exStateWithUpload).1.mode =
      exStateWithUpload.mode ∧
    (handleGenerate exEnvSafety exStateWithUpload).1.uploadedImage =
      exStateWithUpload.uploadedImage ∧
    (handleGenerate exEnvSafety exStateWithUpload).1.fileInputValue =
      exStateWithUpload.fileInputValue :=
  handleGenerate_failure_frame exEnvSafety exStateWithUpload
    (Or.inr (Or.inr ⟨{ message := "Blocked: SAFETY violation" }, rfl⟩))

/-- Counterexample to **C6**: replacing an upload does *not* release the
previous object URL.  With `exOldUpload` (preview `"blob:old"`) in place,
selecting a new file assigns a new uploaded image, yet the handler revokes
nothing. -/
theorem handleFileChange_no_revoke_counterexample :
    exStateWithUpload.uploadedImage = some exOldUpload ∧
    (handleFileChange
        { encodeResult := Except.ok "data:image/jpeg;base64,REVG", freshUrl := "blob:new" }
        [{ type := "image/jpeg" }] exStateWithUpload).1.uploadedImage ≠
      some exOldUpload ∧
    (handleFileChange
        { encodeResult := Except.ok "data:image/jpeg;base64,REVG", freshUrl := "blob:new" }
        [{ type := "image/jpeg" }] exStateWithUpload).2 = [] :=
  ⟨rfl, by decide, rfl⟩

/-- **C6 (amended)**: for every upload removal, the previous preview object
URL is released, the uploaded-image slot cleared and the file-selection
input reset to empty; for every upload replace, the new uploaded image is
assigned *without* releasing the previous preview reference (the handler
revokes no URL). -/
theorem uploadLifecycle_amended (s : AppState) (img : UploadedImage)
    (env : FileChangeEnv) (f : JSFile) (fs : List JSFile) (b64 : String)
    (hu : s.uploadedImage = some img)
    (henc : env.encodeResult = Except.ok b64) :
    (removeUploadedImage s).2 = [img.previewUrl] ∧
    (removeUploadedImage s).1.uploadedImage = none ∧
    (removeUploadedImage s).1.fileInputValue = "" ∧
    (handleFileChange env (f :: fs) s).2 = [] ∧
    (handleFileChange env (f :: fs) s).1.uploadedImage =
      some { file := f, previewUrl := env.freshUrl, base64 := b64,
             mimeType := f.type } := by
  refine ⟨?_, rfl, rfl, ?_, ?_⟩
  · simp [removeUploadedImage, hu]
  · simp [handleFileChange, henc]
  · simp [handleFileChange, henc]

/-- Witness for **C6 (amended)**: removing `exOldUpload` revokes
`"blob:old"` and clears the slot and input; replacing it revokes nothing
and stores the new image. -/
theorem uploadLifecycle_amended_witness :
    (removeUploadedImage exStateWithUpload).2 = ["blob:old"] ∧
    (removeUploadedImage exStateWithUpload).1.uploadedImage = none ∧
    (removeUploadedImage exStateWithUpload).1.fileInputValue = "" ∧
    (handleFileChange
        { encodeResult := Except.ok "data:image/jpeg;base64,REVG", freshUrl := "blob:new" }
        [{ type := "image/jpeg" }] exStateWithUpload).2 = [] ∧
    (handleFileChange
        { encodeResult := Except.ok "data:image/jpeg;base64,REVG", freshUrl := "blob:new" }
        [{ type := "image/jpeg" }] exStateWithUpload).1.uploadedImage =
      some { file := { type := "image/jpeg" }, previewUrl := "blob:new",
             base64 := "data:image/jpeg;base64,REVG", mimeType := "image/jpeg" } :=
  uploadLifecycle_amended exStateWithUpload exOldUpload
    { encodeResult := Except.ok "data:image/jpeg;base64,REVG", freshUrl := "blob:new" }
    { type := "image/jpeg" } [] "data:image/jpeg;base64,REVG" rfl rfl

end TaoAnh
